import Mathlib

/-!
Verification of the pytest-flask plugin core (`pytest_flask/plugin.py`).

The development shallowly embeds the plugin's three mechanisms:
* response-class augmentation (`JSONResponse`, `_make_test_response_class`),
* application-context push/pop (`_push_application_context`),
* per-test configuration override (`_configure_application`),
together with enough of the surrounding pytest fixture lifecycle
(monkeypatch restore, finalizer LIFO execution, setup-error short
circuiting) to state lifecycle properties of a single test run.
-/

namespace PytestFlask

/-- A member stored in a class attribute dictionary.  `cachedJsonProperty`
is the lazily-decoding `json` cached property defined on `JSONResponse`;
`user n` stands for an arbitrary user-defined member (the tag `n` only
distinguishes members from one another). -/
inductive Member where
  | cachedJsonProperty : Member
  | user : Nat → Member
deriving DecidableEq

/-- A Python class: a name, the class's own attribute dictionary
(`__dict__`, an association list keyed by attribute name), and the list
of base classes in declaration order.  The implicit root `object`, which
defines no attribute relevant here, is left out of the base lists. -/
inductive PyClass where
  | mk : String → List (String × Member) → List PyClass → PyClass

/-- The class's own attribute dictionary (`cls.__dict__`). -/
def PyClass.dict : PyClass → List (String × Member)
  | .mk _ d _ => d

/-- The base classes of a class, in declaration order. -/
def PyClass.bases : PyClass → List PyClass
  | .mk _ _ bs => bs

/-- The name of a class. -/
def PyClass.name : PyClass → String
  | .mk n _ _ => n

/-- The keys of the class's own attribute dictionary: `a in cls.__dict__`
in Python is `a ∈ c.ownKeys` here. -/
def PyClass.ownKeys (c : PyClass) : List String :=
  c.dict.map Prod.fst

mutual

/-- Attribute lookup on a class: the class's own dictionary first, then
the bases depth-first, left to right.  For the class hierarchies built by
the plugin (trees over distinct bases plus the attribute-free `object`
root) this first-found order agrees with lookup along Python's C3 method
resolution order. -/
def resolveAttr : PyClass → String → Option Member
  | .mk _ d bs, a =>
    match d.lookup a with
    | some m => some m
    | none => resolveAttrList bs a

/-- Attribute lookup along a list of classes, first match wins. -/
def resolveAttrList : List PyClass → String → Option Member
  | [], _ => none
  | c :: cs, a =>
    match resolveAttr c a with
    | some m => some m
    | none => resolveAttrList cs a

end

/-- The `JSONResponse` mixin class: its own dictionary defines exactly the
`json` cached property. -/
def JSONResponseClass : PyClass :=
  .mk "JSONResponse" [("json", Member.cachedJsonProperty)] []

/-- `_make_test_response_class(response_class)`: if `json` is a key of the
class's own `__dict__`, return the class unchanged; otherwise build
`type(str(JSONResponse), (response_class, JSONResponse), {})` — a new
class with an empty own dictionary whose bases are the original class
followed by `JSONResponse`.  (`str(JSONResponse)` is the textual form of
the class object; the model uses a fixed name, which no claim depends
on.) -/
def _make_test_response_class (response_class : PyClass) : PyClass :=
  if "json" ∈ response_class.ownKeys then
    response_class
  else
    .mk "<class JSONResponse>" [] [response_class, JSONResponseClass]

/-- A decoded JSON document. -/
inductive JsonVal where
  | null : JsonVal
  | bool : Bool → JsonVal
  | num : Int → JsonVal
  | str : String → JsonVal
  | arr : List JsonVal → JsonVal
  | obj : List (String × JsonVal) → JsonVal

/-- Whitespace characters skipped between JSON tokens. -/
def isJsonWs (c : Char) : Bool :=
  c == ' ' || c == '\n' || c == '\t' || c == '\r'

/-- Drop leading JSON whitespace. -/
def skipWs : List Char → List Char
  | [] => []
  | c :: cs => if isJsonWs c then skipWs cs else c :: cs

/-- Parse the body of a JSON string after the opening quote, returning the
content and the input after the closing quote.  Escape sequences lie
outside the modelled fragment and are rejected. -/
def parseStringBody : List Char → Except String (String × List Char)
  | [] => .error "unterminated string"
  | c :: cs =>
    if c = '"' then .ok ("", cs)
    else if c = '\\' then .error "string escapes outside the modelled fragment"
    else
      match parseStringBody cs with
      | .error e => .error e
      | .ok (s, rest) => .ok (String.mk (c :: s.data), rest)

/-- Split off a maximal run of leading decimal digits. -/
def takeDigits : List Char → List Char × List Char
  | [] => ([], [])
  | c :: cs =>
    if c.isDigit then
      let (ds, rest) := takeDigits cs
      (c :: ds, rest)
    else ([], c :: cs)

/-- Numeric value of a digit run. -/
def digitsToNat (ds : List Char) : Nat :=
  ds.foldl (fun acc c => 10 * acc + (c.toNat - 48)) 0

mutual

/-- Recursive-descent parse of one JSON value; `fuel` bounds the
recursion depth and a fuel of input length plus one always suffices. -/
def parseVal : Nat → List Char → Except String (JsonVal × List Char)
  | 0, _ => .error "document too deeply nested"
  | fuel + 1, cs =>
    match skipWs cs with
    | [] => .error "unexpected end of document"
    | '"' :: rest =>
      match parseStringBody rest with
      | .error e => .error e
      | .ok (s, r) => .ok (.str s, r)
    | '{' :: rest =>
      match skipWs rest with
      | '}' :: r => .ok (.obj [], r)
      | other => match parseMembers fuel other with
        | .error e => .error e
        | .ok (ms, r) => .ok (.obj ms, r)
    | '[' :: rest =>
      match skipWs rest with
      | ']' :: r => .ok (.arr [], r)
      | other => match parseElems fuel other with
        | .error e => .error e
        | .ok (vs, r) => .ok (.arr vs, r)
    | 'n' :: 'u' :: 'l' :: 'l' :: rest => .ok (.null, rest)
    | 't' :: 'r' :: 'u' :: 'e' :: rest => .ok (.bool true, rest)
    | 'f' :: 'a' :: 'l' :: 's' :: 'e' :: rest => .ok (.bool false, rest)
    | c :: rest =>
      if c = '-' then
        match takeDigits rest with
        | ([], _) => .error "invalid literal"
        | (ds, r) => .ok (.num (-(Int.ofNat (digitsToNat ds))), r)
      else if c.isDigit then
        let (ds, r) := takeDigits (c :: rest)
        .ok (.num (Int.ofNat (digitsToNat ds)), r)
      else .error "invalid literal"

/-- Parse the members of a non-empty JSON object, up to and including the
closing brace. -/
def parseMembers : Nat → List Char → Except String (List (String × JsonVal) × List Char)
  | 0, _ => .error "document too deeply nested"
  | fuel + 1, cs =>
    match skipWs cs with
    | '"' :: rest =>
      match parseStringBody rest with
      | .error e => .error e
      | .ok (k, r1) =>
        match skipWs r1 with
        | ':' :: r2 =>
          match parseVal fuel r2 with
          | .error e => .error e
          | .ok (v, r3) =>
            match skipWs r3 with
            | ',' :: r4 =>
              match parseMembers fuel r4 with
              | .error e => .error e
              | .ok (ms, r5) => .ok ((k, v) :: ms, r5)
            | '}' :: r4 => .ok ([(k, v)], r4)
            | _ => .error "expected comma or closing brace in object"
        | _ => .error "expected colon in object"
    | _ => .error "expected string key in object"

/-- Parse the elements of a non-empty JSON array, up to and including the
closing bracket. -/
def parseElems : Nat → List Char → Except String (List JsonVal × List Char)
  | 0, _ => .error "document too deeply nested"
  | fuel + 1, cs =>
    match parseVal fuel cs with
    | .error e => .error e
    | .ok (v, r1) =>
      match skipWs r1 with
      | ',' :: r2 =>
        match parseElems fuel r2 with
        | .error e => .error e
        | .ok (vs, r3) => .ok (v :: vs, r3)
      | ']' :: r2 => .ok ([v], r2)
      | _ => .error "expected comma or closing bracket in array"

end

/-- Modelled from the spec: `flask.json.loads`, the application's JSON
codec, is an external collaborator whose code is not part of this
repository; the spec specifies it only at its interface — decode a valid
JSON document to a value, raise a decode error carrying a reason on
anything else.  The model decodes the escape-free JSON fragment. -/
def json_loads (s : String) : Except String JsonVal :=
  match parseVal (s.length + 1) s.data with
  | .error e => .error e
  | .ok (v, rest) =>
    match skipWs rest with
    | [] => .ok v
    | _ => .error "extra data after document"

/-- An instance of the augmented response class: the raw body string
(`self.data`) plus the instance-level cache slot that `cached_property`
fills on first successful access (absent on a freshly constructed
response). -/
structure TestResponse where
  data : String
  jsonCache : Option JsonVal

/-- Response construction stores the body and performs no decoding: the
cache slot starts empty. -/
def mkResponse (body : String) : TestResponse :=
  { data := body, jsonCache := none }

/-- Reading the `json` cached property: a cached value is returned as is;
otherwise the body is decoded now, a successful result is stored in the
instance cache, and a decode error propagates to the reader without
filling the cache (`cached_property` caches only on normal return). -/
def readJson (r : TestResponse) : Except String JsonVal × TestResponse :=
  match r.jsonCache with
  | some v => (.ok v, r)
  | none =>
    match json_loads r.data with
    | .ok v => (.ok v, { r with jsonCache := some v })
    | .error e => (.error e, r)

/-- A configuration / marker-keyword value. -/
inductive Value where
  | bool : Bool → Value
  | int : Int → Value
  | str : String → Value
deriving DecidableEq

/-- Write one key into a string-keyed mapping kept as an association
list: an existing binding for the key is overwritten in place, a new key
is appended (Python dict item assignment). -/
def setItem (m : List (String × Value)) (k : String) (v : Value) : List (String × Value) :=
  match m with
  | [] => [(k, v)]
  | (k1, v1) :: rest =>
    if k1 = k then (k, v) :: rest else (k1, v1) :: setItem rest k v

/-- The application object borrowed by the plugin for one test: its
mutable configuration mapping (`app.config`), its replaceable
response-type slot (`app.response_class`), and a flag modelling whether
`app.test_request_context()` raises (the application cannot produce a
context). -/
structure App where
  config : List (String × Value)
  response_class : PyClass
  ctxFails : Bool

/-- Observable context events of a run: `ctx.push()` and `ctx.pop()`
calls on the application's request context. -/
inductive Event where
  | push : Event
  | pop : Event
deriving DecidableEq

/-- The mutable state a test run threads through fixtures, body and
finalizers: the application and the trace of context events. -/
structure RunState where
  app : App
  events : List Event

/-- A teardown action registered during setup: the undo recorded by
`monkeypatch.setattr` (restore the saved `response_class`), or the
`teardown` closure passed to `request.addfinalizer` (call `ctx.pop()`). -/
inductive Finalizer where
  | restoreResponseClass : PyClass → Finalizer
  | popContext : Finalizer

/-- Run one registered finalizer. -/
def runFinalizer (f : Finalizer) (st : RunState) : RunState :=
  match f with
  | .restoreResponseClass old =>
    { st with app := { st.app with response_class := old } }
  | .popContext =>
    { st with events := st.events ++ [Event.pop] }

/-- Run finalizers in pytest order: most recently registered first.  The
list is kept most-recent-first, so a left fold runs them in order. -/
def applyFinalizers (fins : List Finalizer) (st : RunState) : RunState :=
  fins.foldl (fun s f => runFinalizer f s) st

/-- What the plugin sees of one collected test: the test's declared
fixture dependency set (`request.fixturenames`) and the keyword
arguments of its `app` marker when one is attached
(`request.keywords.get("app")`, `none` when absent). -/
structure TestRequest where
  fixturenames : List String
  appMark : Option (List (String × Value))

/-- Setup-phase state: the run state plus the finalizers registered so
far, most recent first. -/
def SetupState := RunState × List Finalizer

/-- The `_monkeypatch_response_class` autouse fixture: gated on `"app"`
being among the test's fixture names; when active, it replaces the
application's `response_class` slot with the augmented class via
`monkeypatch.setattr`, which records the prior value and registers its
restoration as a teardown. -/
def _monkeypatch_response_class (req : TestRequest) (s : SetupState) : SetupState :=
  if "app" ∈ req.fixturenames then
    let old := s.1.app.response_class
    ({ s.1 with app := { s.1.app with response_class := _make_test_response_class old } },
     Finalizer.restoreResponseClass old :: s.2)
  else s

/-- The `_push_application_context` autouse fixture: gated on `"app"`;
when active it asks the application for a request context and pushes it,
then registers `teardown` (which pops the context) via
`request.addfinalizer`.  If `app.test_request_context()` raises, the
fixture fails before the push and before any finalizer registration:
the error carries the state unchanged. -/
def _push_application_context (req : TestRequest) (s : SetupState) :
    Except SetupState SetupState :=
  if "app" ∈ req.fixturenames then
    if s.1.app.ctxFails then .error s
    else .ok ({ s.1 with events := s.1.events ++ [Event.push] },
              Finalizer.popContext :: s.2)
  else .ok s

/-- The `_configure_application` autouse fixture: gated on `"app"`; when
active and the test carries an `app` marker, every keyword of the marker
is written into `app.config` under its upper-cased name (`options` is
truthy exactly when the marker is present). -/
def _configure_application (req : TestRequest) (s : SetupState) : SetupState :=
  if "app" ∈ req.fixturenames then
    match req.appMark with
    | some kwargs =>
      ({ s.1 with app := { s.1.app with
          config := kwargs.foldl (fun c kv => setItem c kv.1.toUpper kv.2) s.1.app.config } },
       s.2)
    | none => s
  else s

/-- Whether the test body returns normally or raises. -/
inductive BodyResult where
  | passes : BodyResult
  | raises : BodyResult
deriving DecidableEq

/-- The reported outcome of a test run. -/
inductive Outcome where
  | passed : Outcome
  | failed : Outcome
  | setupError : Outcome
deriving DecidableEq

/-- One full test run under pytest's fixture protocol: the three autouse
fixtures run in order (response-class patch, context push, configuration
override); if a fixture raises, the remaining fixtures and the test body
are skipped and the run is a setup error; either way the finalizers
registered so far run afterwards, most recent first.  The test body only
determines the outcome — it touches none of the modelled state. -/
def runTest (req : TestRequest) (body : BodyResult) (app0 : App) : Outcome × RunState :=
  let s1 := _monkeypatch_response_class req ({ app := app0, events := [] }, [])
  match _push_application_context req s1 with
  | .error s => (Outcome.setupError, applyFinalizers s.2 s.1)
  | .ok s2 =>
    let s3 := _configure_application req s2
    let out := match body with
      | .passes => Outcome.passed
      | .raises => Outcome.failed
    (out, applyFinalizers s3.2 s3.1)

/-! ### Concrete sample objects used by witnesses -/

/-- A plain response class defining no `json` member of its own. -/
def plainResponseClass : PyClass := .mk "Response" [] []

/-- A response class whose own dictionary defines a user `json` member. -/
def userJsonResponseClass : PyClass := .mk "MyResponse" [("json", Member.user 0)] []

/-- A response class inheriting a user `json` member from a base class
while defining none of its own. -/
def inheritedJsonResponseClass : PyClass :=
  .mk "SubResponse" [] [.mk "BaseResponse" [("json", Member.user 7)] []]

/-- A sample application: a `DEBUG = true` configuration entry, the plain
response class, and working context creation. -/
def sampleApp : App :=
  { config := [("DEBUG", Value.bool true)]
    response_class := plainResponseClass
    ctxFails := false }

/-- A sample application whose `test_request_context()` raises. -/
def brokenCtxApp : App :=
  { config := [], response_class := plainResponseClass, ctxFails := true }

/-! ### Helper lemmas -/

/-- A key listed among an association list's keys has a binding. -/
theorem lookup_of_mem_keys {d : List (String × Member)} {a : String}
    (h : a ∈ d.map Prod.fst) : ∃ m, d.lookup a = some m := by
  induction d with
  | nil => simp at h
  | cons kv rest ih =>
    rcases kv with ⟨k1, v1⟩
    by_cases hk : a = k1
    · exact ⟨v1, by simp [List.lookup, hk]⟩
    · have h2 : a ∈ rest.map Prod.fst := by
        rw [List.map_cons] at h
        rcases List.mem_cons.mp h with h1 | h1
        · exact absurd h1 hk
        · exact h1
      rcases ih h2 with ⟨m, hm⟩
      have hne : (a == k1) = false := beq_eq_false_iff_ne.mpr hk
      exact ⟨m, by simp [List.lookup, hne, hm]⟩

/-- Attribute resolution on a freshly synthesized wrapper class: the own
dictionary is empty, so the original class is consulted first, then
`JSONResponse`. -/
theorem resolveAttr_wrapper (n : String) (t j : PyClass) (a : String) :
    resolveAttr (.mk n [] [t, j]) a =
      match resolveAttr t a with
      | some m => some m
      | none => resolveAttr j a := by
  rcases ht : resolveAttr t a with _ | m <;>
    rcases hj : resolveAttr j a with _ | m2 <;>
      simp [resolveAttr, resolveAttrList, List.lookup, ht, hj]

/-- Augmentation preserves every attribute the input class resolves. -/
theorem resolve_make_of_resolve {t : PyClass} {a : String} {m : Member}
    (h : resolveAttr t a = some m) :
    resolveAttr (_make_test_response_class t) a = some m := by
  unfold _make_test_response_class
  split
  · exact h
  · rw [resolveAttr_wrapper, h]

/-- The result of augmentation always resolves the `json` attribute. -/
theorem resolve_make_json (t : PyClass) :
    ∃ m, resolveAttr (_make_test_response_class t) "json" = some m := by
  unfold _make_test_response_class
  split
  · rename_i h
    have h2 : "json" ∈ t.dict.map Prod.fst := h
    rcases lookup_of_mem_keys h2 with ⟨m, hm⟩
    refine ⟨m, ?_⟩
    cases t with
    | mk n d bs =>
      simp [PyClass.dict] at hm
      simp [resolveAttr, hm]
  · rw [resolveAttr_wrapper]
    rcases hj : resolveAttr t "json" with _ | m
    · exact ⟨Member.cachedJsonProperty, by simp [JSONResponseClass, resolveAttr, List.lookup]⟩
    · exact ⟨m, by simp⟩

/-- A class is never equal to a wrapper having it among the bases. -/
theorem wrapper_ne_self (n : String) (c j : PyClass) :
    PyClass.mk n [] [c, j] ≠ c := by
  intro h
  have hs : sizeOf c < sizeOf (PyClass.mk n [] [c, j]) := by
    simp
    omega
  rw [h] at hs
  exact lt_irrefl _ hs

/-- Looking up the key just written by `setItem` yields the new value. -/
theorem lookup_setItem_self (m : List (String × Value)) (k : String) (v : Value) :
    (setItem m k v).lookup k = some v := by
  induction m with
  | nil => simp [setItem, List.lookup]
  | cons kv rest ih =>
    rcases kv with ⟨k1, v1⟩
    by_cases h : k1 = k
    · simp [setItem, h, List.lookup]
    · have hne : (k == k1) = false := beq_eq_false_iff_ne.mpr (Ne.symm h)
      simp [setItem, h, List.lookup, hne, ih]

/-- `setItem` leaves the binding of every other key unchanged. -/
theorem lookup_setItem_ne (m : List (String × Value)) (k k2 : String) (v : Value)
    (h : k2 ≠ k) : (setItem m k v).lookup k2 = m.lookup k2 := by
  induction m with
  | nil => simp [setItem, List.lookup, beq_eq_false_iff_ne.mpr h]
  | cons kv rest ih =>
    rcases kv with ⟨k1, v1⟩
    by_cases h1 : k1 = k
    · subst h1
      simp [setItem, List.lookup, beq_eq_false_iff_ne.mpr h]
    · simp [setItem, h1, List.lookup, ih]

/-- Folding marker keywords into a configuration leaves every key that is
not among the upper-cased marker keys unchanged. -/
theorem lookup_foldl_setItem_not_mem (kwargs : List (String × Value))
    (c : List (String × Value)) (k : String)
    (h : k ∉ kwargs.map (fun kv => kv.1.toUpper)) :
    (kwargs.foldl (fun c kv => setItem c kv.1.toUpper kv.2) c).lookup k = c.lookup k := by
  induction kwargs generalizing c with
  | nil => simp
  | cons kv rest ih =>
    rw [List.map_cons] at h
    have h1 : k ≠ kv.1.toUpper := fun he => h (List.mem_cons.mpr (Or.inl he))
    have h2 : k ∉ rest.map (fun kv => kv.1.toUpper) :=
      fun he => h (List.mem_cons.mpr (Or.inr he))
    rw [List.foldl_cons, ih _ h2, lookup_setItem_ne _ _ _ _ h1]

/-- When the upper-cased marker keys are pairwise distinct, every marker
entry ends up bound to its value after the configuration fold. -/
theorem lookup_foldl_setItem_mem (kwargs : List (String × Value))
    (c : List (String × Value)) (kv : String × Value) (hmem : kv ∈ kwargs)
    (hnd : (kwargs.map (fun x => x.1.toUpper)).Nodup) :
    (kwargs.foldl (fun c x => setItem c x.1.toUpper x.2) c).lookup kv.1.toUpper
      = some kv.2 := by
  induction kwargs generalizing c with
  | nil => simp at hmem
  | cons x rest ih =>
    rw [List.map_cons, List.nodup_cons] at hnd
    rcases List.mem_cons.mp hmem with h | h
    · subst h
      rw [List.foldl_cons, lookup_foldl_setItem_not_mem _ _ _ hnd.1,
        lookup_setItem_self]
    · rw [List.foldl_cons]
      exact ih _ h hnd.2

/-- Augmenting a class without an own `json` entry builds the wrapper. -/
theorem make_of_not_own (c : PyClass) (hc : "json" ∉ c.ownKeys) :
    _make_test_response_class c
      = PyClass.mk "<class JSONResponse>" [] [c, JSONResponseClass] := by
  simp [_make_test_response_class, hc]

/-- The wrapper built by augmentation has an empty own dictionary. -/
theorem wrapper_not_own_json (c j : PyClass) (n : String) :
    "json" ∉ (PyClass.mk n [] [c, j]).ownKeys := by
  simp [PyClass.ownKeys, PyClass.dict]

/-! ### Claims -/

/-- C4: for every response type whose own attribute dictionary defines the
member named `json`, `_make_test_response_class` returns the exact input
type unchanged, preserving the user's own definition. -/
theorem make_test_response_class_preserves_user_json (t : PyClass)
    (h : "json" ∈ t.ownKeys) : _make_test_response_class t = t := by
  simp [_make_test_response_class, h]

/-- Witness for C4 at a class defining its own `json` member. -/
theorem make_test_response_class_preserves_user_json_witness :
    "json" ∈ userJsonResponseClass.ownKeys
    ∧ _make_test_response_class userJsonResponseClass = userJsonResponseClass :=
  ⟨by simp [userJsonResponseClass, PyClass.ownKeys, PyClass.dict],
   make_test_response_class_preserves_user_json userJsonResponseClass
     (by simp [userJsonResponseClass, PyClass.ownKeys, PyClass.dict])⟩

/-- C10: the augmentation check inspects only the type's own attribute
dictionary, so a type whose `json` accessor is only inherited is still
wrapped; the wrapper lists the original type first among its bases, and
every member the original type resolves — including such an inherited
`json` — takes precedence over the added accessor. -/
theorem make_test_response_class_own_dict_check (t : PyClass) (m : Member)
    (hown : "json" ∉ t.ownKeys) (hinh : resolveAttr t "json" = some m) :
    _make_test_response_class t
        = PyClass.mk "<class JSONResponse>" [] [t, JSONResponseClass]
    ∧ (∀ a m2, resolveAttr t a = some m2 →
        resolveAttr (_make_test_response_class t) a = some m2)
    ∧ resolveAttr (_make_test_response_class t) "json" = some m :=
  ⟨make_of_not_own t hown,
   fun _ _ h => resolve_make_of_resolve h,
   resolve_make_of_resolve hinh⟩

/-- Witness for C10 at a class inheriting `json` from a base class. -/
theorem make_test_response_class_own_dict_check_witness :
    ("json" ∉ inheritedJsonResponseClass.ownKeys
      ∧ resolveAttr inheritedJsonResponseClass "json" = some (Member.user 7))
    ∧ (_make_test_response_class inheritedJsonResponseClass
        = PyClass.mk "<class JSONResponse>" []
            [inheritedJsonResponseClass, JSONResponseClass]
      ∧ (∀ a m2, resolveAttr inheritedJsonResponseClass a = some m2 →
          resolveAttr (_make_test_response_class inheritedJsonResponseClass) a
            = some m2)
      ∧ resolveAttr (_make_test_response_class inheritedJsonResponseClass) "json"
          = some (Member.user 7)) :=
  ⟨⟨by simp [inheritedJsonResponseClass, PyClass.ownKeys, PyClass.dict],
    by simp [inheritedJsonResponseClass, resolveAttr, resolveAttrList, List.lookup]⟩,
   make_test_response_class_own_dict_check inheritedJsonResponseClass (Member.user 7)
     (by simp [inheritedJsonResponseClass, PyClass.ownKeys, PyClass.dict])
     (by simp [inheritedJsonResponseClass, resolveAttr, resolveAttrList, List.lookup])⟩

/-- C3 counterexample: augmenting the result of a previous augmentation is
not a no-op — the already-augmented type is not returned unchanged, a
second wrapper is built around it, because the own-dictionary check does
not see the inherited accessor. -/
theorem augment_augmented_not_unchanged :
    _make_test_response_class (_make_test_response_class plainResponseClass)
      ≠ _make_test_response_class plainResponseClass := by
  have h0 : "json" ∉ plainResponseClass.ownKeys := by
    simp [plainResponseClass, PyClass.ownKeys, PyClass.dict]
  rw [make_of_not_own _ h0,
    make_of_not_own _ (wrapper_not_own_json plainResponseClass JSONResponseClass _)]
  exact wrapper_ne_self _ _ _

/-- C3 amended: augmenting an already-augmented type is not the identity —
it wraps again — but the result is behaviorally identical: every
attribute the augmented type resolves is resolved to the same member by
the re-augmented type, and in particular the `json` accessor is
unchanged. -/
theorem augment_augmented_behavioral_noop (t : PyClass)
    (hown : "json" ∉ t.ownKeys) :
    _make_test_response_class (_make_test_response_class t)
        ≠ _make_test_response_class t
    ∧ (∀ a m, resolveAttr (_make_test_response_class t) a = some m →
        resolveAttr (_make_test_response_class (_make_test_response_class t)) a
          = some m)
    ∧ resolveAttr (_make_test_response_class (_make_test_response_class t)) "json"
        = resolveAttr (_make_test_response_class t) "json" := by
  have h1 := make_of_not_own t hown
  have hw : "json" ∉ (_make_test_response_class t).ownKeys := by
    rw [h1]
    exact wrapper_not_own_json t JSONResponseClass _
  refine ⟨?_, fun _ _ h => resolve_make_of_resolve h, ?_⟩
  · rw [make_of_not_own _ hw]
    exact wrapper_ne_self _ _ _
  · rcases resolve_make_json t with ⟨m, hm⟩
    rw [hm, resolve_make_of_resolve hm]

/-- Witness for the amended C3 at the plain response class. -/
theorem augment_augmented_behavioral_noop_witness :
    "json" ∉ plainResponseClass.ownKeys
    ∧ (_make_test_response_class (_make_test_response_class plainResponseClass)
          ≠ _make_test_response_class plainResponseClass
      ∧ (∀ a m,
          resolveAttr (_make_test_response_class plainResponseClass) a = some m →
          resolveAttr
            (_make_test_response_class
              (_make_test_response_class plainResponseClass)) a = some m)
      ∧ resolveAttr
            (_make_test_response_class
              (_make_test_response_class plainResponseClass)) "json"
          = resolveAttr (_make_test_response_class plainResponseClass) "json") :=
  ⟨by simp [plainResponseClass, PyClass.ownKeys, PyClass.dict],
   augment_augmented_behavioral_noop plainResponseClass
     (by simp [plainResponseClass, PyClass.ownKeys, PyClass.dict])⟩

/-- A test declaring the `app` fixture, with no `app` marker attached. -/
def appOnlyRequest : TestRequest :=
  { fixturenames := ["request", "app"], appMark := none }

/-- A test not declaring the `app` fixture. -/
def noAppRequest : TestRequest :=
  { fixturenames := ["request", "tmpdir"], appMark := none }

/-- A test declaring the `app` fixture and carrying the marker
`pytest.mark.app(debug=False)`. -/
def debugMarkRequest : TestRequest :=
  { fixturenames := ["request", "app"]
    appMark := some [("debug", Value.bool false)] }

/-- C1: in every run of a test declaring the `app` fixture, the number of
context push calls equals the number of pop calls, and the context is
activated and deactivated at most once — the trace is empty (context
creation failed) or exactly one push followed by one pop — including
runs whose body raises. -/
theorem context_push_pop_symmetry (req : TestRequest) (body : BodyResult)
    (app0 : App) (hf : "app" ∈ req.fixturenames) :
    ((runTest req body app0).2.events).count Event.push
        = ((runTest req body app0).2.events).count Event.pop
    ∧ ((runTest req body app0).2.events = []
        ∨ (runTest req body app0).2.events = [Event.push, Event.pop]) := by
  have h : (runTest req body app0).2.events = []
      ∨ (runTest req body app0).2.events = [Event.push, Event.pop] := by
    cases hc : app0.ctxFails <;>
      cases hmark : req.appMark <;>
        cases body <;>
          simp [runTest, _monkeypatch_response_class, _push_application_context,
            _configure_application, applyFinalizers, runFinalizer, hf, hc, hmark]
  refine ⟨?_, h⟩
  rcases h with h | h <;> rw [h] <;> rfl

/-- Witness for C1 at a raising test body. -/
theorem context_push_pop_symmetry_witness :
    "app" ∈ appOnlyRequest.fixturenames
    ∧ (((runTest appOnlyRequest BodyResult.raises sampleApp).2.events).count
          Event.push
        = ((runTest appOnlyRequest BodyResult.raises sampleApp).2.events).count
            Event.pop
      ∧ ((runTest appOnlyRequest BodyResult.raises sampleApp).2.events = []
        ∨ (runTest appOnlyRequest BodyResult.raises sampleApp).2.events
            = [Event.push, Event.pop])) :=
  ⟨by simp [appOnlyRequest],
   context_push_pop_symmetry appOnlyRequest BodyResult.raises sampleApp
     (by simp [appOnlyRequest])⟩

/-- C2: for every test declaring the `app` fixture, the application's
`response_class` slot after the run equals its value before the run, for
every body outcome and also when context creation fails during setup. -/
theorem response_class_restored (req : TestRequest) (body : BodyResult)
    (app0 : App) (hf : "app" ∈ req.fixturenames) :
    ((runTest req body app0).2).app.response_class = app0.response_class := by
  cases hc : app0.ctxFails <;>
    cases hmark : req.appMark <;>
      cases body <;>
        simp [runTest, _monkeypatch_response_class, _push_application_context,
          _configure_application, applyFinalizers, runFinalizer, hf, hc, hmark]

/-- Witness for C2 at a raising test body. -/
theorem response_class_restored_witness :
    "app" ∈ appOnlyRequest.fixturenames
    ∧ ((runTest appOnlyRequest BodyResult.raises sampleApp).2).app.response_class
        = sampleApp.response_class :=
  ⟨by simp [appOnlyRequest],
   response_class_restored appOnlyRequest BodyResult.raises sampleApp
     (by simp [appOnlyRequest])⟩

/-- C5: for a test not declaring the `app` fixture, each of the three
fixtures returns its input state unchanged, and the full run leaves the
application (configuration mapping, response-class slot and all) exactly
as it was, with no context event. -/
theorem gating_no_app (req : TestRequest) (body : BodyResult) (app0 : App)
    (hf : "app" ∉ req.fixturenames) :
    (∀ s, _monkeypatch_response_class req s = s)
    ∧ (∀ s, _push_application_context req s = .ok s)
    ∧ (∀ s, _configure_application req s = s)
    ∧ (runTest req body app0).2.app = app0
    ∧ (runTest req body app0).2.events = [] := by
  refine ⟨fun s => by simp [_monkeypatch_response_class, hf],
    fun s => by simp [_push_application_context, hf],
    fun s => by simp [_configure_application, hf], ?_, ?_⟩ <;>
    cases body <;>
      simp [runTest, _monkeypatch_response_class, _push_application_context,
        _configure_application, applyFinalizers, hf]

/-- Witness for C5 at a test that only uses `tmpdir`. -/
theorem gating_no_app_witness :
    "app" ∉ noAppRequest.fixturenames
    ∧ ((∀ s, _monkeypatch_response_class noAppRequest s = s)
      ∧ (∀ s, _push_application_context noAppRequest s = .ok s)
      ∧ (∀ s, _configure_application noAppRequest s = s)
      ∧ (runTest noAppRequest BodyResult.passes sampleApp).2.app = sampleApp
      ∧ (runTest noAppRequest BodyResult.passes sampleApp).2.events = []) :=
  ⟨by simp [noAppRequest],
   gating_no_app noAppRequest BodyResult.passes sampleApp
     (by simp [noAppRequest])⟩

/-- C6: when a configuration marker is present on a test declaring the
`app` fixture, every marker keyword is written into the application's
configuration under its upper-cased name, overwriting any existing
binding (keys assumed to stay distinct after upper-casing, as keyword
sets have distinct names). -/
theorem configure_application_writes_upper (req : TestRequest) (st : RunState)
    (fins : List Finalizer) (kwargs : List (String × Value))
    (hf : "app" ∈ req.fixturenames) (hm : req.appMark = some kwargs)
    (hnd : (kwargs.map (fun kv => kv.1.toUpper)).Nodup) :
    ∀ kv ∈ kwargs,
      ((_configure_application req (st, fins)).1.app.config).lookup kv.1.toUpper
        = some kv.2 := by
  intro kv hkv
  simp only [_configure_application, hf, if_pos, hm]
  exact lookup_foldl_setItem_mem kwargs st.app.config kv hkv hnd

/-- Witness for C6: the marker `app(debug=False)` forces `DEBUG = false`
over a prior `DEBUG = true`. -/
theorem configure_application_writes_upper_witness :
    ("app" ∈ debugMarkRequest.fixturenames
      ∧ debugMarkRequest.appMark = some [("debug", Value.bool false)]
      ∧ (([("debug", Value.bool false)]).map
          (fun kv => kv.1.toUpper)).Nodup
      ∧ ("debug", Value.bool false) ∈ [("debug", Value.bool false)])
    ∧ ((_configure_application debugMarkRequest
          ({ app := sampleApp, events := [] }, [])).1.app.config).lookup
            ("debug".toUpper)
        = some (Value.bool false) :=
  ⟨⟨by simp [debugMarkRequest], by simp [debugMarkRequest], by simp, by simp⟩,
   configure_application_writes_upper debugMarkRequest
     { app := sampleApp, events := [] } [] [("debug", Value.bool false)]
     (by simp [debugMarkRequest]) (by simp [debugMarkRequest]) (by simp)
     ("debug", Value.bool false) (by simp)⟩

/-- C8: with the `app` fixture declared but no `app` marker attached, the
configuration-override fixture is the identity on the setup state, and
the configuration mapping after a full run equals the one before it. -/
theorem configure_application_noop_without_marker (req : TestRequest)
    (hf : "app" ∈ req.fixturenames) (hm : req.appMark = none) :
    (∀ s, _configure_application req s = s)
    ∧ (∀ body app0, (runTest req body app0).2.app.config = app0.config) := by
  constructor
  · intro s
    simp [_configure_application, hf, hm]
  · intro body app0
    cases hc : app0.ctxFails <;> cases body <;>
      simp [runTest, _monkeypatch_response_class, _push_application_context,
        _configure_application, applyFinalizers, runFinalizer, hf, hm, hc]

/-- Witness for C8 at a markerless test. -/
theorem configure_application_noop_without_marker_witness :
    ("app" ∈ appOnlyRequest.fixturenames ∧ appOnlyRequest.appMark = none)
    ∧ ((∀ s, _configure_application appOnlyRequest s = s)
      ∧ (∀ body app0,
          (runTest appOnlyRequest body app0).2.app.config = app0.config)) :=
  ⟨⟨by simp [appOnlyRequest], by simp [appOnlyRequest]⟩,
   configure_application_noop_without_marker appOnlyRequest
     (by simp [appOnlyRequest]) (by simp [appOnlyRequest])⟩

/-- C9: when the application cannot produce a request context, the run is
reported as a setup error for every test body (the body never runs), no
context event is recorded, and the failing fixture registers no
finalizer — the error carries the setup state unchanged. -/
theorem context_failure_setup_error (req : TestRequest) (body : BodyResult)
    (app0 : App) (hf : "app" ∈ req.fixturenames)
    (hc : app0.ctxFails = true) :
    (runTest req body app0).1 = Outcome.setupError
    ∧ (runTest req body app0).2.events = []
    ∧ (∀ s, s.1.app.ctxFails = true →
        _push_application_context req s = .error s) := by
  refine ⟨?_, ?_, fun s hs => by simp [_push_application_context, hf, hs]⟩ <;>
    cases body <;>
      simp [runTest, _monkeypatch_response_class, _push_application_context,
        _configure_application, applyFinalizers, runFinalizer, hf, hc]

/-- Witness for C9 at an application whose context creation raises. -/
theorem context_failure_setup_error_witness :
    ("app" ∈ appOnlyRequest.fixturenames ∧ brokenCtxApp.ctxFails = true)
    ∧ ((runTest appOnlyRequest BodyResult.passes brokenCtxApp).1
          = Outcome.setupError
      ∧ (runTest appOnlyRequest BodyResult.passes brokenCtxApp).2.events = []
      ∧ (∀ s, s.1.app.ctxFails = true →
          _push_application_context appOnlyRequest s = .error s)) :=
  ⟨⟨by simp [appOnlyRequest], rfl⟩,
   context_failure_setup_error appOnlyRequest BodyResult.passes brokenCtxApp
     (by simp [appOnlyRequest]) rfl⟩

/-- C7: on the augmented response, the JSON accessor decodes the body
`\x7b"ping": "pong"\x7d` to the mapping `ping ↦ pong`; on a body the codec
rejects it propagates the decode error unchanged (never a partial or null
result); construction performs no decode (the cache slot starts empty and
the first read performs exactly the codec call); and a successful first
read fills the cache, after which reading again returns the cached value
with no state change. -/
theorem json_accessor_lazy_decode :
    (readJson (mkResponse "\x7b\"ping\": \"pong\"\x7d")).1
        = .ok (JsonVal.obj [("ping", JsonVal.str "pong")])
    ∧ (∀ body e, json_loads body = .error e →
        readJson (mkResponse body) = (.error e, mkResponse body))
    ∧ (∀ body, (mkResponse body).jsonCache = none
        ∧ (readJson (mkResponse body)).1 = json_loads body)
    ∧ (∀ r v r2, readJson r = (.ok v, r2) →
        r2.jsonCache = some v ∧ readJson r2 = (.ok v, r2)) := by
  refine ⟨rfl, ?_, ?_, ?_⟩
  · intro body e he
    simp [readJson, mkResponse, he]
  · intro body
    refine ⟨rfl, ?_⟩
    simp only [readJson, mkResponse]
    rcases json_loads body with e | v <;> simp
  · intro r v r2 h
    rcases hr : r.jsonCache with _ | v0
    · simp only [readJson, hr] at h
      rcases hl : json_loads r.data with e | v1
      · rw [hl] at h
        simp at h
      · rw [hl] at h
        simp at h
        rcases h with ⟨hv, hr2⟩
        subst hv
        constructor
        · rw [← hr2]
        · rw [← hr2]
          simp [readJson]
    · simp only [readJson, hr] at h
      simp at h
      rcases h with ⟨hv, hr2⟩
      subst hv
      subst hr2
      exact ⟨hr, by simp [readJson, hr]⟩

/-- Witness for C7: a decode error on the body `not json`, and caching
after a successful first read of the `ping`/`pong` body. -/
theorem json_accessor_lazy_decode_witness :
    (json_loads "not json" = .error "invalid literal"
      ∧ readJson (mkResponse "not json")
          = (.error "invalid literal", mkResponse "not json"))
    ∧ (readJson (mkResponse "\x7b\"ping\": \"pong\"\x7d")
          = (.ok (JsonVal.obj [("ping", JsonVal.str "pong")]),
             { data := "\x7b\"ping\": \"pong\"\x7d",
               jsonCache := some (JsonVal.obj [("ping", JsonVal.str "pong")]) })
      ∧ (({ data := "\x7b\"ping\": \"pong\"\x7d",
            jsonCache := some (JsonVal.obj [("ping", JsonVal.str "pong")]) }
            : TestResponse).jsonCache
          = some (JsonVal.obj [("ping", JsonVal.str "pong")])
        ∧ readJson
            { data := "\x7b\"ping\": \"pong\"\x7d",
              jsonCache := some (JsonVal.obj [("ping", JsonVal.str "pong")]) }
          = (.ok (JsonVal.obj [("ping", JsonVal.str "pong")]),
             { data := "\x7b\"ping\": \"pong\"\x7d",
               jsonCache := some (JsonVal.obj [("ping", JsonVal.str "pong")]) }))) :=
  ⟨⟨rfl, json_accessor_lazy_decode.2.1 "not json" "invalid literal" rfl⟩,
   ⟨rfl,
    json_accessor_lazy_decode.2.2.2
      (mkResponse "\x7b\"ping\": \"pong\"\x7d")
      (JsonVal.obj [("ping", JsonVal.str "pong")])
      { data := "\x7b\"ping\": \"pong\"\x7d",
        jsonCache := some (JsonVal.obj [("ping", JsonVal.str "pong")]) }
      rfl⟩⟩

end PytestFlask
